import Mathlib

/-!
Shallow embedding of `src/main.rs` of the `guiders` repository: a udev/evdev
watcher that classifies joystick devices and, per device, spawns a listener
thread that runs a configured command on the release of the controller's
home button.

External calls (udev enumeration, the udev monitor, evdev opens and fetches,
thread and process spawns, printing) are modelled as explicit inputs and as
an `Effect` trace; the logic between them is translated from the source.
-/

/-- The `Errors` enum of `src/main.rs` (lines 5-18). -/
inductive Errors
  | UdevSubsystem
  | UdevDeviceScan
  | UdevError
  | UdevMonitor
  | EvdevOpen
  | EvdevFetch (name : String)
  | NotController
  | NoDevicePath
  | InvalidParams
deriving DecidableEq

/-- A raw evdev input event as consumed by `listen_for_key`: the numeric
event-type tag (`event.event_type().0`, a u16), the control code
(`event.code()`, a u16) and the value (`event.value()`, an i32). -/
structure RawEvent where
  etype : Nat
  code : Nat
  value : Int
deriving DecidableEq

/-- A udev device as consumed by `verify_device`: its property set
(name/value pairs, `device.properties()`) and its optional device-node path
(`device.devnode()`), kept as raw bytes since the path need not be valid
UTF-8. -/
structure Device where
  properties : List (String × String)
  devnode : Option (List Nat)
deriving DecidableEq

/-- The Unicode replacement character U+FFFD. -/
def replacementChar : Char := Char.ofNat 65533

/-- Is `b` a UTF-8 continuation byte (0x80-0xBF)? -/
def isCont (b : Nat) : Bool := 128 ≤ b && b ≤ 191

/-- Admissible second byte of a three-byte UTF-8 sequence with lead byte `b`
(RFC 3629 table: excludes overlong forms and surrogates). -/
def utf8Second3 (b b2 : Nat) : Bool :=
  if b = 224 then 160 ≤ b2 && b2 ≤ 191
  else if b = 237 then 128 ≤ b2 && b2 ≤ 159
  else isCont b2

/-- Admissible second byte of a four-byte UTF-8 sequence with lead byte `b`
(RFC 3629 table: excludes overlong forms and values above U+10FFFF). -/
def utf8Second4 (b b2 : Nat) : Bool :=
  if b = 240 then 144 ≤ b2 && b2 ≤ 191
  else if b = 244 then 128 ≤ b2 && b2 ≤ 143
  else isCont b2

/-- Fuel-indexed UTF-8 validity check; `fuel` is an upper bound on the number
of bytes still to scan, so `fuel = l.length` always suffices. -/
def utf8ValidGo : Nat → List Nat → Bool
  | 0, l => l.isEmpty
  | _ + 1, [] => true
  | fuel + 1, b :: rest =>
    if b ≤ 127 then utf8ValidGo fuel rest
    else if 194 ≤ b && b ≤ 223 then
      match rest with
      | b2 :: rest2 => isCont b2 && utf8ValidGo fuel rest2
      | [] => false
    else if 224 ≤ b && b ≤ 239 then
      match rest with
      | b2 :: b3 :: rest3 => utf8Second3 b b2 && isCont b3 && utf8ValidGo fuel rest3
      | _ => false
    else if 240 ≤ b && b ≤ 244 then
      match rest with
      | b2 :: b3 :: b4 :: rest4 =>
        utf8Second4 b b2 && isCont b3 && isCont b4 && utf8ValidGo fuel rest4
      | _ => false
    else false

/-- Is `l` a valid UTF-8 byte sequence? Models the check behind Rust's
`OsStr::to_str` returning `Some`. -/
def isValidUtf8 (l : List Nat) : Bool := utf8ValidGo l.length l

/-- Fuel-indexed lossy UTF-8 decoding: valid sequences decode exactly;
an invalid byte yields U+FFFD and scanning resumes one byte later (the
replacement granularity of std is simplified, its valid-input behaviour is
exact). -/
def utf8LossyGo : Nat → List Nat → List Char
  | 0, _ => []
  | _ + 1, [] => []
  | fuel + 1, b :: rest =>
    if b ≤ 127 then Char.ofNat b :: utf8LossyGo fuel rest
    else if 194 ≤ b && b ≤ 223 then
      match rest with
      | b2 :: rest2 =>
        if isCont b2 then
          Char.ofNat ((b - 192) * 64 + (b2 - 128)) :: utf8LossyGo fuel rest2
        else replacementChar :: utf8LossyGo fuel rest
      | [] => [replacementChar]
    else if 224 ≤ b && b ≤ 239 then
      match rest with
      | b2 :: b3 :: rest3 =>
        if utf8Second3 b b2 && isCont b3 then
          Char.ofNat ((b - 224) * 4096 + (b2 - 128) * 64 + (b3 - 128)) ::
            utf8LossyGo fuel rest3
        else replacementChar :: utf8LossyGo fuel rest
      | _ => replacementChar :: utf8LossyGo fuel rest.tail
    else if 240 ≤ b && b ≤ 244 then
      match rest with
      | b2 :: b3 :: b4 :: rest4 =>
        if utf8Second4 b b2 && isCont b3 && isCont b4 then
          Char.ofNat
              ((b - 240) * 262144 + (b2 - 128) * 4096 + (b3 - 128) * 64 + (b4 - 128)) ::
            utf8LossyGo fuel rest4
        else replacementChar :: utf8LossyGo fuel rest
      | _ => replacementChar :: utf8LossyGo fuel rest.tail
    else replacementChar :: utf8LossyGo fuel rest

/-- Models Rust's `to_string_lossy().to_string()` on a path's bytes: total,
never fails, invalid sequences become U+FFFD. -/
def to_string_lossy (l : List Nat) : String := String.mk (utf8LossyGo l.length l)

/-- Models Rust's `OsStr::to_str`: `some` of the decoded string exactly when
the bytes are valid UTF-8, `none` otherwise. -/
def to_str? (l : List Nat) : Option String :=
  if isValidUtf8 l then some (to_string_lossy l) else none

/-- One observable side effect of the program, in program order. Each print
constructor stands for one `println!` site of the source; `logError` for the
`eprintln!` in the listener thread closure; `spawnCommand` for
`Command::new(&args[0]).args(&args[1..]).spawn()`; `spawnListener` for the
`thread::spawn` in `verify_device`; `classifyAttempt` for a call to
`verify_device`; `enumerate` and `monitorInit` mark main entering the udev
enumeration and monitor-construction phases. -/
inductive Effect
  | printConnected (sysname : String)
  | printDeviceFound (path : String)
  | printPressed (name : String)
  | logError (e : Errors)
  | spawnCommand (args : List String)
  | spawnListener (path : String)
  | classifyAttempt (d : Device)
  | enumerate
  | monitorInit
deriving DecidableEq

/-- Is this effect a classification attempt (a call to `verify_device`)? -/
def Effect.isClassifyAttempt : Effect → Bool
  | .classifyAttempt _ => true
  | _ => false

/-- Is this effect a process spawn of the configured command? -/
def Effect.isSpawnCommand : Effect → Bool
  | .spawnCommand _ => true
  | _ => false

/-- Is this effect a listener-thread spawn? -/
def Effect.isSpawnListener : Effect → Bool
  | .spawnListener _ => true
  | _ => false

/-- Is this effect the CONNECTED status line of the hotplug loop? -/
def Effect.isPrintConnected : Effect → Bool
  | .printConnected _ => true
  | _ => false

/-- Is this effect the "Device found" status line of `verify_device`? -/
def Effect.isPrintDeviceFound : Effect → Bool
  | .printDeviceFound _ => true
  | _ => false

/-- The key filter of `listen_for_key` (src/main.rs lines 103-108): the
source skips the event when
`event.event_type().0 != 1 || event.value() != 0 || (key != 316 && key != 139)`;
`is_trigger` is the negation of that skip condition. -/
def is_trigger (e : RawEvent) : Bool :=
  !(e.etype != 1 || e.value != 0 || (e.code != 316 && e.code != 139))

/-- Processing of one event inside the listener's batch loop (src/main.rs
lines 102-116): a non-trigger event is skipped with no effect; a trigger
prints the press and spawns the configured command. -/
def process_event (args : List String) (name : String) (e : RawEvent) : List Effect :=
  if is_trigger e then [Effect.printPressed name, Effect.spawnCommand args] else []

/-- The listener's `for event in fetch_events` loop over one fetched batch,
in batch order. -/
def process_batch (args : List String) (name : String) : List RawEvent → List Effect
  | [] => []
  | e :: rest => process_event args name e ++ process_batch args name rest

/-- The classification logic of `verify_device` (src/main.rs lines 74-82):
`NotController` unless some property is named `ID_INPUT_JOYSTICK` with value
`"1"`, then `NoDevicePath` unless a device node exists, then success with the
node path converted lossily to a string. -/
def verify_classify (d : Device) : Except Errors String :=
  match d.properties.find? (fun v => v.1 == "ID_INPUT_JOYSTICK" && v.2 == "1") with
  | none => Except.error Errors.NotController
  | some _ =>
    match d.devnode with
    | none => Except.error Errors.NoDevicePath
    | some p => Except.ok (to_string_lossy p)

/-- The whole of `verify_device` (src/main.rs lines 73-90): on classification
failure it returns the error having done nothing observable; on success it
prints the "Device found" line, spawns the listener thread for the node path,
and returns `Ok(())`. -/
def verify_device (d : Device) (args : List String) : Except Errors Unit × List Effect :=
  match verify_classify d with
  | Except.error e => (Except.error e, [])
  | Except.ok devnode =>
    (Except.ok (), [Effect.printDeviceFound devnode, Effect.spawnListener devnode])

/-- The udev monitor event actions the hotplug loop can observe
(`event.event_type()`). -/
inductive UdevAction
  | add
  | remove
  | change
  | other
deriving DecidableEq

/-- One udev monitor notification: its action, the sysname bytes
(`event.sysname()`, an `OsStr`) and the device it concerns. -/
structure MonitorEvent where
  action : UdevAction
  sysname : List Nat
  device : Device
deriving DecidableEq

/-- One drain pass of the hotplug loop's inner `while let Some(event)` (src/
main.rs lines 62-69) over the pending notifications: non-`add` events are
skipped; for an `add` event the CONNECTED line is printed through
`sysname().to_str().unwrap()` — `none` models the panic of that `unwrap` on
a sysname that is not valid UTF-8 — and then the device is classified. -/
def hotplug_drain (args : List String) : List MonitorEvent → Option (List Effect)
  | [] => some []
  | e :: rest =>
    if e.action ≠ UdevAction.add then hotplug_drain args rest
    else
      match to_str? e.sysname with
      | none => none
      | some s =>
        match hotplug_drain args rest with
        | none => none
        | some t =>
          some (Effect.printConnected s :: Effect.classifyAttempt e.device ::
            (verify_device e.device args).2 ++ t)

/-- The evdev device a listener task owns, as an external script: the
declared name (`device.name()`) and the outcome of each successive
`fetch_events` call — a batch of raw events, or a fetch failure. -/
structure EvdevDevice where
  name : Option String
  fetches : List (Except Unit (List RawEvent))

/-- The listener's `loop` (src/main.rs lines 96-120) run over a finite script
of fetch outcomes: each successful fetch's batch is processed in order; the
first fetch failure ends the task with `EvdevFetch` carrying the cached name
and nothing after it is touched. An exhausted script means the loop is still
running (`none`: no terminating error yet). -/
def listen_loop (args : List String) (name : String) :
    List (Except Unit (List RawEvent)) → List Effect × Option Errors
  | [] => ([], none)
  | Except.error _ :: _ => ([], some (Errors.EvdevFetch name))
  | Except.ok batch :: rest =>
    (process_batch args name batch ++ (listen_loop args name rest).1,
      (listen_loop args name rest).2)

/-- `listen_for_key` (src/main.rs lines 92-121): `EvdevOpen` if the open
fails (`openResult = none`); otherwise the device's declared name is read
once, defaulting to "Nameless device", and the fetch loop runs with that
cached name. -/
def listen_for_key (openResult : Option EvdevDevice) (args : List String) :
    List Effect × Option Errors :=
  match openResult with
  | none => ([], some Errors.EvdevOpen)
  | some dev => listen_loop args (dev.name.getD "Nameless device") dev.fetches

/-- The closure passed to `thread::spawn` in `verify_device`:
`let _ = listen_for_key(..).map_err(|e| eprintln!(..))` — a terminating
error is logged and swallowed, never propagated to any other task. -/
def listener_thread (openResult : Option EvdevDevice) (args : List String) : List Effect :=
  let r := listen_for_key openResult args
  r.1 ++ (match r.2 with | some e => [Effect.logError e] | none => [])

/-- The startup discovery loop of `main` (src/main.rs lines 52-54):
`for device in devices { let _ = verify_device(device, &args); }` — every
enumerated device is classified and every per-device result is discarded. -/
def discovery_loop (args : List String) : List Device → List Effect
  | [] => []
  | d :: rest =>
    Effect.classifyAttempt d :: (verify_device d args).2 ++ discovery_loop args rest

/-- The external udev layer as `main` consumes it: the outcomes of
`Enumerator::new()`, `match_subsystem("input")`, `scan_devices()`, and of the
monitor construction chain together with the notifications pending at the
first drain of the hotplug loop. -/
structure UdevEnv where
  enumeratorNew : Except Unit Unit
  matchSubsystem : Except Unit Unit
  scanDevices : Except Unit (List Device)
  monitorListen : Except Unit (List MonitorEvent)

/-- How the modelled run of `main` ends: a fatal `Err` return, a panic (the
sysname `unwrap`), or still running (the hotplug loop reached its sleep). -/
inductive MainResult
  | fatal (e : Errors)
  | panicked
  | running
deriving DecidableEq

/-- `main` (src/main.rs lines 39-71) up to the first hotplug drain: the
argument list drops the program name and `InvalidParams` is returned when
nothing remains, before any udev call; then enumeration (its three fallible
steps), the discovery loop, monitor construction, and one drain of pending
monitor events. -/
def main_run (argv : List String) (env : UdevEnv) : List Effect × MainResult :=
  let args := argv.drop 1
  if args.length = 0 then ([], MainResult.fatal Errors.InvalidParams)
  else
    match env.enumeratorNew with
    | Except.error _ => ([Effect.enumerate], MainResult.fatal Errors.UdevError)
    | Except.ok _ =>
      match env.matchSubsystem with
      | Except.error _ => ([Effect.enumerate], MainResult.fatal Errors.UdevSubsystem)
      | Except.ok _ =>
        match env.scanDevices with
        | Except.error _ => ([Effect.enumerate], MainResult.fatal Errors.UdevDeviceScan)
        | Except.ok devices =>
          let dtrace := discovery_loop args devices
          match env.monitorListen with
          | Except.error _ =>
            (Effect.enumerate :: dtrace ++ [Effect.monitorInit], MainResult.fatal Errors.UdevMonitor)
          | Except.ok pending =>
            match hotplug_drain args pending with
            | none => (Effect.enumerate :: dtrace ++ [Effect.monitorInit], MainResult.panicked)
            | some t =>
              (Effect.enumerate :: dtrace ++ [Effect.monitorInit] ++ t, MainResult.running)

/-! ## Helper lemmas -/

/-- The effects `verify_device` itself emits contain no classification
attempt: those markers come only from its call sites. -/
theorem verify_device_no_classify (d : Device) (args : List String) :
    ((verify_device d args).2).countP Effect.isClassifyAttempt = 0 := by
  unfold verify_device
  cases verify_classify d <;> simp [Effect.isClassifyAttempt]

/-- The effects `verify_device` itself emits contain no CONNECTED line. -/
theorem verify_device_no_connected (d : Device) (args : List String) :
    ((verify_device d args).2).countP Effect.isPrintConnected = 0 := by
  unfold verify_device
  cases verify_classify d <;> simp [Effect.isPrintConnected]

/-! ## Claim theorems -/

/-- C1: the Key Filter accepts a raw event iff its type tag is 1 (the key
class), its value is 0 and its code is 316 or 139; any event failing one of
the conditions is skipped with no effect (and no error). -/
theorem key_filter_accepts_iff (args : List String) (name : String) (e : RawEvent) :
    (is_trigger e = true ↔ e.etype = 1 ∧ e.value = 0 ∧ (e.code = 316 ∨ e.code = 139)) ∧
    (is_trigger e = false → process_event args name e = []) := by
  constructor
  · simp [is_trigger]
    tauto
  · intro h
    simp [process_event, h]

/-- C2: a batch holding a key-down (value 1, code 316) followed by a key-up
(value 0, code 316) is processed in batch order, produces exactly one command
spawn, and that spawn comes from the key-up event alone. -/
theorem batch_down_up_single_spawn (args : List String) (name : String) :
    process_batch args name [⟨1, 316, 1⟩, ⟨1, 316, 0⟩] =
      process_event args name ⟨1, 316, 1⟩ ++ process_event args name ⟨1, 316, 0⟩ ∧
    process_event args name ⟨1, 316, 1⟩ = [] ∧
    process_event args name ⟨1, 316, 0⟩ =
      [Effect.printPressed name, Effect.spawnCommand args] ∧
    (process_batch args name [⟨1, 316, 1⟩, ⟨1, 316, 0⟩]).countP Effect.isSpawnCommand = 1 := by
  refine ⟨rfl, ?_, ?_, ?_⟩ <;>
    simp [process_batch, process_event, is_trigger, Effect.isSpawnCommand]

/-- C7: with no argument beyond the program name, `main` returns
`InvalidParams` with an empty effect trace: neither enumeration nor monitor
construction is attempted. -/
theorem zero_args_invalid_params (prog : String) (env : UdevEnv) :
    main_run [prog] env = ([], MainResult.fatal Errors.InvalidParams) := by
  simp [main_run]

/-- C10: classification is deterministic: classifying one fixed device
description any number of times yields the same outcome every time. -/
theorem classify_idempotent (d : Device) (n : Nat) :
    (List.range n).map (fun _ => verify_classify d) =
      List.replicate n (verify_classify d) := by
  simp [List.map_const']

/-- `to_str?` returns `none` exactly on invalid UTF-8. -/
theorem to_str?_none_iff (l : List Nat) : to_str? l = none ↔ isValidUtf8 l = false := by
  cases hv : isValidUtf8 l <;> simp [to_str?, hv]

/-- Counting lemma for one hotplug drain pass: when the drain completes, its
trace holds one classification attempt and one CONNECTED line per `add`
notification. -/
theorem hotplug_drain_counts (args : List String) (evs : List MonitorEvent)
    (t : List Effect) (h : hotplug_drain args evs = some t) :
    t.countP Effect.isClassifyAttempt =
      evs.countP (fun e => e.action == UdevAction.add) ∧
    t.countP Effect.isPrintConnected =
      evs.countP (fun e => e.action == UdevAction.add) := by
  induction evs generalizing t with
  | nil =>
    simp [hotplug_drain] at h
    subst h
    simp
  | cons e rest ih =>
    by_cases ha : e.action = UdevAction.add
    · cases hs : to_str? e.sysname with
      | none => simp [hotplug_drain, ha, hs] at h
      | some s =>
        cases hr : hotplug_drain args rest with
        | none => simp [hotplug_drain, ha, hs, hr] at h
        | some t' =>
          simp [hotplug_drain, ha, hs, hr] at h
          obtain ⟨c1, c2⟩ := ih t' hr
          subst h
          constructor
          · simp [List.countP_cons, List.countP_append, Effect.isClassifyAttempt,
              verify_device_no_classify, c1, ha]
          · simp [List.countP_cons, List.countP_append, Effect.isPrintConnected,
              verify_device_no_connected, c2, ha]
    · simp only [hotplug_drain, if_pos ha] at h
      obtain ⟨c1, c2⟩ := ih t h
      constructor <;> simp [List.countP_cons, ha, c1, c2]

/-- One hotplug drain pass completes (no panic) exactly when every `add`
notification carries a valid-UTF-8 sysname. -/
theorem hotplug_drain_isSome (args : List String) (evs : List MonitorEvent) :
    (hotplug_drain args evs).isSome ↔
      ∀ e ∈ evs, e.action = UdevAction.add → isValidUtf8 e.sysname = true := by
  induction evs with
  | nil => simp [hotplug_drain]
  | cons e rest ih =>
    by_cases ha : e.action = UdevAction.add
    · cases hs : to_str? e.sysname with
      | none =>
        have hv : isValidUtf8 e.sysname = false := (to_str?_none_iff e.sysname).mp hs
        have h1 : hotplug_drain args (e :: rest) = none := by
          simp [hotplug_drain, ha, hs]
        rw [List.forall_mem_cons]
        simp [h1, ha, hv]
      | some s =>
        have hv : isValidUtf8 e.sysname = true := by
          by_contra hc
          rw [Bool.not_eq_true] at hc
          rw [(to_str?_none_iff e.sysname).mpr hc] at hs
          cases hs
        have hstep : (hotplug_drain args (e :: rest)).isSome =
            (hotplug_drain args rest).isSome := by
          cases hr : hotplug_drain args rest <;> simp [hotplug_drain, ha, hs, hr]
        rw [List.forall_mem_cons, hstep, ih]
        simp [ha, hv]
    · simp [hotplug_drain, ha, ih]

/-- C3: a device with no property named `ID_INPUT_JOYSTICK` whose value is
exactly `"1"` classifies as `NotController`, and `verify_device` emits no
effect for it: no "Device found" line and no listener-thread spawn. -/
theorem not_controller_never_listened (d : Device) (args : List String)
    (h : ∀ p ∈ d.properties, ¬(p.1 = "ID_INPUT_JOYSTICK" ∧ p.2 = "1")) :
    verify_classify d = Except.error Errors.NotController ∧
    verify_device d args = (Except.error Errors.NotController, []) := by
  have hf : d.properties.find? (fun v => v.1 == "ID_INPUT_JOYSTICK" && v.2 == "1") = none := by
    rw [List.find?_eq_none]
    intro x hx
    simpa using h x hx
  have hc : verify_classify d = Except.error Errors.NotController := by
    simp [verify_classify, hf]
  exact ⟨hc, by simp [verify_device, hc]⟩

/-- Witness for C3 on a keyboard-marked device with a node path. -/
theorem not_controller_never_listened_witness :
    verify_classify ⟨[("ID_INPUT_KEYBOARD", "1")], some [97]⟩ =
      Except.error Errors.NotController ∧
    verify_device ⟨[("ID_INPUT_KEYBOARD", "1")], some [97]⟩ ["cmd"] =
      (Except.error Errors.NotController, []) :=
  not_controller_never_listened ⟨[("ID_INPUT_KEYBOARD", "1")], some [97]⟩ ["cmd"] (by decide)

/-- C4: with the joystick marker present, classification yields
`NoDevicePath` exactly when the node path is missing (the `NotController`
check having been decided first), and otherwise succeeds with the node path
converted lossily — a total conversion, so encoding never fails it. -/
theorem joystick_node_classification (d : Device)
    (h : ∃ pr ∈ d.properties, pr.1 = "ID_INPUT_JOYSTICK" ∧ pr.2 = "1") :
    (d.devnode = none → verify_classify d = Except.error Errors.NoDevicePath) ∧
    ∀ p, d.devnode = some p → verify_classify d = Except.ok (to_string_lossy p) := by
  have hf : (d.properties.find? (fun v => v.1 == "ID_INPUT_JOYSTICK" && v.2 == "1")).isSome := by
    rw [List.find?_isSome]
    obtain ⟨pr, hm, h1, h2⟩ := h
    exact ⟨pr, hm, by simp [h1, h2]⟩
  obtain ⟨pr, hpr⟩ := Option.isSome_iff_exists.mp hf
  constructor
  · intro hn
    simp [verify_classify, hpr, hn]
  · intro p hp
    simp [verify_classify, hpr, hp]

/-- Witness for C4: a joystick with no node gives `NoDevicePath`; one with
node bytes `/a` classifies to that path's lossy string. -/
theorem joystick_node_classification_witness :
    verify_classify ⟨[("ID_INPUT_JOYSTICK", "1")], none⟩ =
      Except.error Errors.NoDevicePath ∧
    verify_classify ⟨[("ID_INPUT_JOYSTICK", "1")], some [47, 97]⟩ =
      Except.ok (to_string_lossy [47, 97]) :=
  ⟨(joystick_node_classification ⟨[("ID_INPUT_JOYSTICK", "1")], none⟩ (by decide)).1 rfl,
   (joystick_node_classification ⟨[("ID_INPUT_JOYSTICK", "1")], some [47, 97]⟩
      (by decide)).2 [47, 97] rfl⟩

/-- C5: in one drain of the hotplug loop, classification attempts equal the
`add` notifications: `remove` and `change` events never reach the
classifier, so a stream with one event of each action yields exactly one
classification attempt. -/
theorem hotplug_only_add_classified (args : List String) (evs : List MonitorEvent)
    (t : List Effect) (h : hotplug_drain args evs = some t) :
    t.countP Effect.isClassifyAttempt =
      evs.countP (fun e => e.action == UdevAction.add) :=
  (hotplug_drain_counts args evs t h).1

/-- Witness for C5: an add/remove/change stream for one device produces a
trace with exactly one classification attempt. -/
theorem hotplug_only_add_classified_witness :
    ([Effect.printConnected "a", Effect.classifyAttempt ⟨[], none⟩] : List Effect).countP
      Effect.isClassifyAttempt = 1 := by
  have h := hotplug_only_add_classified ["c"]
    [⟨UdevAction.add, [97], ⟨[], none⟩⟩, ⟨UdevAction.remove, [97], ⟨[], none⟩⟩,
      ⟨UdevAction.change, [97], ⟨[], none⟩⟩]
    [Effect.printConnected "a", Effect.classifyAttempt ⟨[], none⟩] (by decide)
  rw [h]
  decide

/-- C6: a listener whose fetch script fails at some point processes exactly
the batches fetched before the failure, in order, then terminates with
`EvdevFetch` carrying the name cached at open time ("Nameless device" when
the device declares none); nothing after the failure is fetched, and the
spawned thread merely logs the error, propagating nothing. -/
theorem listener_fetch_failure (args : List String) (nm : Option String)
    (pre : List (List RawEvent)) (post : List (Except Unit (List RawEvent))) :
    listen_for_key (some ⟨nm, pre.map Except.ok ++ Except.error () :: post⟩) args =
      ((pre.map (process_batch args (nm.getD "Nameless device"))).flatten,
        some (Errors.EvdevFetch (nm.getD "Nameless device"))) ∧
    listener_thread (some ⟨nm, pre.map Except.ok ++ Except.error () :: post⟩) args =
      (pre.map (process_batch args (nm.getD "Nameless device"))).flatten ++
        [Effect.logError (Errors.EvdevFetch (nm.getD "Nameless device"))] := by
  have key : ∀ (name : String) (pre : List (List RawEvent)),
      listen_loop args name (pre.map Except.ok ++ Except.error () :: post) =
        ((pre.map (process_batch args name)).flatten,
          some (Errors.EvdevFetch name)) := by
    intro name pre
    induction pre with
    | nil => simp [listen_loop]
    | cons b rest ih => simp [listen_loop, ih]
  constructor
  · simp [listen_for_key, key]
  · simp [listener_thread, listen_for_key, key]

/-- C8: the discovery loop classifies every enumerated device — per-device
failures are discarded without aborting the loop — and, the udev calls
succeeding, main proceeds past the monitor construction and keeps running
whatever each classification returned. -/
theorem discovery_failures_swallowed (args : List String) (devices : List Device)
    (prog a : String) (rest : List String) (pending : List MonitorEvent)
    (t : List Effect) (h : hotplug_drain (a :: rest) pending = some t) :
    (discovery_loop args devices).countP Effect.isClassifyAttempt = devices.length ∧
    (main_run (prog :: a :: rest)
        ⟨Except.ok (), Except.ok (), Except.ok devices, Except.ok pending⟩).2 =
      MainResult.running := by
  constructor
  · induction devices with
    | nil => simp [discovery_loop]
    | cons d ds ih =>
      simp [discovery_loop, List.countP_cons, List.countP_append,
        Effect.isClassifyAttempt, verify_device_no_classify, ih]
  · simp [main_run, h]

/-- Witness for C8: two devices, one not a controller and one a joystick,
are both classified, and main keeps running. -/
theorem discovery_failures_swallowed_witness :
    (discovery_loop ["c"] [⟨[], none⟩, ⟨[("ID_INPUT_JOYSTICK", "1")], some [47]⟩]).countP
      Effect.isClassifyAttempt = 2 ∧
    (main_run ["p", "c"]
        ⟨Except.ok (), Except.ok (),
          Except.ok [⟨[], none⟩, ⟨[("ID_INPUT_JOYSTICK", "1")], some [47]⟩],
          Except.ok []⟩).2 = MainResult.running :=
  discovery_failures_swallowed ["c"] [⟨[], none⟩, ⟨[("ID_INPUT_JOYSTICK", "1")], some [47]⟩]
    "p" "c" [] [] [] rfl

/-- C9: one drain of the hotplug loop completes exactly when every `add`
notification's sysname is valid UTF-8 — the `unwrap` in the CONNECTED print
panics otherwise, and main then ends `panicked`, not with an `Err` — and
when it completes, a CONNECTED line is printed for every `add` event, those
failing classification included. -/
theorem hotplug_unwrap_totality (args : List String) (evs : List MonitorEvent) :
    ((hotplug_drain args evs).isSome ↔
      ∀ e ∈ evs, e.action = UdevAction.add → isValidUtf8 e.sysname = true) ∧
    (∀ t, hotplug_drain args evs = some t →
      t.countP Effect.isPrintConnected =
        evs.countP (fun e => e.action == UdevAction.add)) ∧
    (∀ prog devices, args ≠ [] → hotplug_drain args evs = none →
      (main_run (prog :: args)
          ⟨Except.ok (), Except.ok (), Except.ok devices, Except.ok evs⟩).2 =
        MainResult.panicked) := by
  refine ⟨hotplug_drain_isSome args evs,
    fun t h => (hotplug_drain_counts args evs t h).2, ?_⟩
  intro prog devices hargs hnone
  simp [main_run, hnone, List.length_eq_zero, hargs]
